import Mathlib

/-!
Shallow embedding of the mock banking API client
(`02-vanilla-js-enhancement/js/apiClient.js`).

JavaScript numbers are modelled as `Rat` (decimal currency units), times
(`Date.now()` milliseconds) as `Int`, and every source of nondeterminism
(`Math.random`-derived ids, OTP codes and the clock) as an explicit
parameter.  Each endpoint is a pure function from a `MockState` to a
result paired with the successor state; a thrown `handleFailure` becomes
an `Except.error` carrying the `errorCode`.
-/

namespace ApiClient

/-- A registered user (`mockState.users` entries). -/
structure User where
  id : String
  email : String
  password : String
  name : String
deriving DecidableEq

/-- An account in the ledger (`mockState.accounts` entries). -/
structure Account where
  id : String
  userId : String
  name : String
  number : String
  balance : Rat
  currency : String
deriving DecidableEq

/-- A transaction record (`mockState.transactions` entries). -/
structure Transaction where
  id : String
  accountId : String
  description : String
  amount : Rat
  createdAt : Int
deriving DecidableEq

/-- The OTP challenge embedded in a transfer (`transfer.otp`). -/
structure Otp where
  code : String
  attempts : Nat
  expiresAt : Int
deriving DecidableEq

/-- The three status strings the source ever assigns to a transfer. -/
inductive TransferStatus where
  | PENDING_OTP
  | VERIFIED
  | COMPLETED
deriving DecidableEq

/-- A transfer record (`mockState.transfers` values). -/
structure Transfer where
  id : String
  userId : String
  fromAccountId : String
  toAccountId : String
  amount : Rat
  status : TransferStatus
  otp : Option Otp
  createdAt : Int
deriving DecidableEq

/-- The whole in-memory mock state.  JavaScript `Map`s become association
lists keyed by their string keys. -/
structure MockState where
  users : List User
  tokens : List (String × String)
  accounts : List Account
  transactions : List Transaction
  transfers : List (String × Transfer)
deriving DecidableEq

/-- The `errorCode` values raised through `handleFailure`. -/
inductive ErrorCode where
  | VALIDATION
  | UNAUTHORIZED
  | EMAIL_IN_USE
  | INVALID_CREDENTIALS
  | ACCOUNT_NOT_FOUND
  | INSUFFICIENT_FUNDS
  | TRANSFER_NOT_FOUND
  | OTP_EXPIRED
  | OTP_LOCKED
  | OTP_INVALID
  | OTP_REQUIRED
  | CONTACT_OFFICER
deriving DecidableEq

/-- `Map.prototype.set`: replace the value stored at an existing key,
append a fresh binding otherwise. -/
def mapSet {α : Type} (m : List (String × α)) (k : String) (v : α) :
    List (String × α) :=
  if (m.lookup k).isSome then
    m.map (fun p => if p.1 == k then (k, v) else p)
  else
    m ++ [(k, v)]

/-- `mockState.transfers.get(transferId)`. -/
def findTransfer (st : MockState) (transferId : String) : Option Transfer :=
  st.transfers.lookup transferId

/-- Store an updated transfer record under its id. -/
def setTransfer (st : MockState) (transferId : String) (t : Transfer) :
    MockState :=
  { st with transfers := mapSet st.transfers transferId t }

/-- `requireAuth`: resolve the bearer token to its user; fails
`UNAUTHORIZED` when the token is unknown or the mapped user is gone. -/
def requireAuth (st : MockState) (authToken : String) :
    Except ErrorCode User :=
  match st.tokens.lookup authToken with
  | none => .error .UNAUTHORIZED
  | some userId =>
    match st.users.find? (fun u => u.id == userId) with
    | none => .error .UNAUTHORIZED
    | some user => .ok user

/-- The user summary `{id, email, name}` returned by the auth endpoints. -/
structure UserSummary where
  id : String
  email : String
  name : String
deriving DecidableEq

/-- `mockAuth.register`.  The random ids (`makeId`), the random account
number and the fresh token are passed in explicitly. -/
def register (newUserId newAcctId acctNumber token : String)
    (email password name : String) (st : MockState) :
    Except ErrorCode (UserSummary × String) × MockState :=
  if email = "" ∨ password = "" then
    (.error .VALIDATION, st)
  else
    match st.users.find? (fun u => u.email == email) with
    | some _ => (.error .EMAIL_IN_USE, st)
    | none =>
      let newUser : User :=
        { id := newUserId, email := email, password := password,
          name := if name = "" then "New Customer" else name }
      (.ok ({ id := newUser.id, email := newUser.email, name := newUser.name },
            token),
       { st with
          users := st.users ++ [newUser],
          accounts := st.accounts ++
            [{ id := newAcctId, userId := newUser.id, name := "New Checking",
               number := acctNumber, balance := 0, currency := "USD" }],
          tokens := mapSet st.tokens token newUser.id })

/-- The branch predicate of `mockTransactions`' filter:
`accountId ? tx.accountId === accountId : allowed.includes(tx.accountId)`
(`null` and the empty string are falsy). -/
def txSelected (accountId : Option String) (allowedAccountIds : List String)
    (tx : Transaction) : Bool :=
  match accountId with
  | some aid => if aid = "" then allowedAccountIds.contains tx.accountId
                else tx.accountId == aid
  | none => allowedAccountIds.contains tx.accountId

/-- The comparator `(a, b) => b.createdAt - a.createdAt`: `a` may precede
`b` exactly when `b.createdAt ≤ a.createdAt` (descending by timestamp). -/
def txDescOrder (a b : Transaction) : Prop :=
  b.createdAt ≤ a.createdAt

instance : DecidableRel txDescOrder := fun a b =>
  inferInstanceAs (Decidable (b.createdAt ≤ a.createdAt))

instance : IsTotal Transaction txDescOrder :=
  ⟨fun a b => le_total b.createdAt a.createdAt⟩

instance : IsTrans Transaction txDescOrder :=
  ⟨fun _ _ _ h h' => le_trans h' h⟩

/-- `mockTransactions`: filter, then sort descending by `createdAt`. -/
def mockTransactions (authToken : String) (accountId : Option String)
    (st : MockState) : Except ErrorCode (List Transaction) :=
  match requireAuth st authToken with
  | .error e => .error e
  | .ok user =>
    let accounts := st.accounts.filter (fun a => a.userId == user.id)
    let allowedAccountIds := accounts.map (·.id)
    .ok (List.insertionSort txDescOrder
          (st.transactions.filter (txSelected accountId allowedAccountIds)))

/-- The transfer record `initiate` creates: `PENDING_OTP`, no challenge
yet. -/
def pendingTransfer (now : Int)
    (transferId userId fromAccountId toAccountId : String)
    (amount : Rat) : Transfer :=
  { id := transferId, userId := userId, fromAccountId := fromAccountId,
    toAccountId := toAccountId, amount := amount, status := .PENDING_OTP,
    otp := none, createdAt := now }

/-- `mockTransfer.initiate`.  `!amount` treats an amount of `0` as a
missing field; `Number(amount) > fromAccount.balance` is the funds
check. -/
def initiate (now : Int) (transferId : String)
    (authToken fromAccountId toAccountId : String) (amount : Rat)
    (st : MockState) :
    Except ErrorCode (String × TransferStatus) × MockState :=
  match requireAuth st authToken with
  | .error e => (.error e, st)
  | .ok user =>
    if fromAccountId = "" ∨ toAccountId = "" ∨ amount = 0 then
      (.error .VALIDATION, st)
    else
      match st.accounts.find?
          (fun a => a.id == fromAccountId && a.userId == user.id) with
      | none => (.error .ACCOUNT_NOT_FOUND, st)
      | some fromAcct =>
        if fromAcct.balance < amount then
          (.error .INSUFFICIENT_FUNDS, st)
        else
          (.ok (transferId, .PENDING_OTP),
           { st with transfers := (mapSet st.transfers transferId
              (pendingTransfer now transferId user.id fromAccountId
                toAccountId amount)) })

/-- The OTP code `Math.floor(100000 + Math.random() * 900000).toString()`,
with the `Math.random()` draw `r` passed in. -/
def otpCode (r : Rat) : String :=
  toString ⌊(100000 : Rat) + r * 900000⌋

/-- The challenge object `sendOtp` installs at time `now` with random
draw `r`: fresh code, attempt counter `0`, expiry `now + 5 minutes`. -/
def freshOtp (now : Int) (r : Rat) : Otp :=
  { code := otpCode r, attempts := 0, expiresAt := now + 5 * 60 * 1000 }

/-- `mockTransfer.sendOtp`: unconditionally installs a fresh challenge;
the transfer's status is left untouched. -/
def sendOtp (now : Int) (r : Rat) (authToken transferId : String)
    (st : MockState) : Except ErrorCode (String × String) × MockState :=
  match requireAuth st authToken with
  | .error e => (.error e, st)
  | .ok _ =>
    match findTransfer st transferId with
    | none => (.error .TRANSFER_NOT_FOUND, st)
    | some t =>
      (.ok ("OTP_SENT", otpCode r),
       setTransfer st transferId { t with otp := some (freshOtp now r) })

/-- `mockTransfer.verifyOtp`: expiry check (`expiresAt < now`), then the
attempt ceiling (`attempts >= 5`), then the code comparison; a mismatch
increments the attempt counter before failing.  The transfer's current
status is never inspected. -/
def verifyOtp (now : Int) (authToken transferId code : String)
    (st : MockState) : Except ErrorCode String × MockState :=
  match requireAuth st authToken with
  | .error e => (.error e, st)
  | .ok _ =>
    match findTransfer st transferId with
    | none => (.error .TRANSFER_NOT_FOUND, st)
    | some t =>
      match t.otp with
      | none => (.error .TRANSFER_NOT_FOUND, st)
      | some o =>
        if o.expiresAt < now then
          (.error .OTP_EXPIRED, st)
        else if 5 ≤ o.attempts then
          (.error .OTP_LOCKED, st)
        else if o.code ≠ code then
          (.error .OTP_INVALID,
           setTransfer st transferId
            { t with otp := some { o with attempts := o.attempts + 1 } })
        else
          (.ok "VERIFIED",
           setTransfer st transferId { t with status := .VERIFIED })

/-- Predicate locating the source account during `confirm` (and
`initiate`): `acct.id === transfer.fromAccountId && acct.userId === user.id`. -/
def isFromAcct (t : Transfer) (uid : String) (a : Account) : Bool :=
  a.id == t.fromAccountId && a.userId == uid

/-- Predicate locating the destination account during `confirm`:
`acct.id === transfer.toAccountId` (no ownership requirement). -/
def isToAcct (t : Transfer) (a : Account) : Bool :=
  a.id == t.toAccountId

/-- In-place mutation of the first list element satisfying `p`, the way
a JavaScript `find` followed by a field assignment mutates the array. -/
def updateFirst {α : Type} (p : α → Bool) (f : α → α) : List α → List α
  | [] => []
  | a :: rest => if p a then f a :: rest else a :: updateFirst p f rest

/-- The receipt object returned by `confirm`. -/
structure Receipt where
  id : String
  fromAccount : String
  toAccount : String
  amount : Rat
  currency : String
  createdAt : Int
  reference : String
deriving DecidableEq

/-- `mockTransfer.confirm`: requires status `VERIFIED`, re-checks the
source balance, debits the source, credits the destination when it
resolves internally (looked up in the already-debited ledger, exactly as
the source mutates shared objects), appends a transaction record on the
source account, and marks the transfer `COMPLETED`.  The receipt id and
display reference are passed in for `makeId`/`makeReferenceCode`. -/
def confirm (now : Int) (receiptId reference : String)
    (authToken transferId note : String) (st : MockState) :
    Except ErrorCode (String × Receipt) × MockState :=
  match requireAuth st authToken with
  | .error e => (.error e, st)
  | .ok user =>
    match findTransfer st transferId with
    | none => (.error .TRANSFER_NOT_FOUND, st)
    | some t =>
      if t.status ≠ .VERIFIED then
        (.error .OTP_REQUIRED, st)
      else
        match st.accounts.find? (isFromAcct t user.id) with
        | none => (.error .ACCOUNT_NOT_FOUND, st)
        | some fromAcct =>
          if fromAcct.balance < t.amount then
            (.error .INSUFFICIENT_FUNDS, st)
          else
            let accounts1 := updateFirst (isFromAcct t user.id)
              (fun a => { a with balance := a.balance - t.amount })
              st.accounts
            let toAcct := accounts1.find? (isToAcct t)
            let accounts2 := match toAcct with
              | some _ => updateFirst (isToAcct t)
                  (fun a => { a with balance := a.balance + t.amount })
                  accounts1
              | none => accounts1
            let receipt : Receipt :=
              { id := receiptId, fromAccount := fromAcct.number,
                toAccount := match toAcct with
                  | some a2 => if a2.number = "" then t.toAccountId
                               else a2.number
                  | none => t.toAccountId,
                amount := t.amount, currency := fromAcct.currency,
                createdAt := now, reference := reference }
            let newTx : Transaction :=
              { id := receiptId, accountId := fromAcct.id,
                description := if note = "" then "Transfer" else note,
                amount := -t.amount, createdAt := now }
            (.ok (transferId, receipt),
             setTransfer
              { st with accounts := accounts2,
                        transactions := st.transactions ++ [newTx] }
              transferId { t with status := .COMPLETED })

/-! ## Concrete states used by witnesses and counterexamples -/

/-- The seeded demo user, with the seed's credentials. -/
def demoUser : User :=
  { id := "user-1", email := "demo@bank.test", password := "password123",
    name := "Demo Customer" }

/-- A checking account owned by the demo user (integral balance). -/
def demoAcct1 : Account :=
  { id := "acct-1", userId := "user-1", name := "Everyday Checking",
    number := "1234567890", balance := 100, currency := "USD" }

/-- A savings account owned by the demo user. -/
def demoAcct2 : Account :=
  { id := "acct-2", userId := "user-1", name := "Savings Vault",
    number := "9876543210", balance := 50, currency := "USD" }

/-- A seeded transaction on the demo checking account. -/
def demoTx1 : Transaction :=
  { id := "tx-1", accountId := "acct-1", description := "Coffee shop",
    amount := -9, createdAt := 4000 }

/-- A small concrete state: one user, one session token, two accounts. -/
def demoState (transactions : List Transaction)
    (transfers : List (String × Transfer)) : MockState :=
  { users := [demoUser], tokens := [("token-1", "user-1")],
    accounts := [demoAcct1, demoAcct2], transactions := transactions,
    transfers := transfers }

/-- A verified transfer whose source and destination are the same
internal account. -/
def tSelf : Transfer :=
  { id := "tr-1", userId := "user-1", fromAccountId := "acct-1",
    toAccountId := "acct-1", amount := 50, status := .VERIFIED,
    otp := none, createdAt := 0 }

/-- A pending transfer whose challenge expires at time `300000`
(exactly `sentAt + 5` minutes for a challenge sent at time `0`). -/
def tBoundary : Transfer :=
  { id := "tr-1", userId := "user-1", fromAccountId := "acct-1",
    toAccountId := "acct-2", amount := 10, status := .PENDING_OTP,
    otp := some { code := "123456", attempts := 0, expiresAt := 300000 },
    createdAt := 0 }

/-- A completed transfer that still carries a fresh, unexpired
challenge. -/
def tCompleted : Transfer :=
  { id := "tr-1", userId := "user-1", fromAccountId := "acct-1",
    toAccountId := "acct-2", amount := 30, status := .COMPLETED,
    otp := some { code := "654321", attempts := 0, expiresAt := 600000 },
    createdAt := 0 }

/-- A pending transfer whose unexpired challenge is locked (five failed
attempts). -/
def tLocked : Transfer :=
  { id := "tr-1", userId := "user-1", fromAccountId := "acct-1",
    toAccountId := "acct-2", amount := 10, status := .PENDING_OTP,
    otp := some { code := "999999", attempts := 5, expiresAt := 300000 },
    createdAt := 0 }

/-- A completed transfer whose old challenge is both locked and long
expired. -/
def tStale : Transfer :=
  { id := "tr-1", userId := "user-1", fromAccountId := "acct-1",
    toAccountId := "acct-2", amount := 10, status := .COMPLETED,
    otp := some { code := "999999", attempts := 5, expiresAt := -1 },
    createdAt := 0 }

/-- A verified transfer between the two distinct demo accounts. -/
def tDistinct : Transfer :=
  { id := "tr-1", userId := "user-1", fromAccountId := "acct-1",
    toAccountId := "acct-2", amount := 40, status := .VERIFIED,
    otp := none, createdAt := 0 }

/-- The state reached by registering a second user on top of a demo
state that already records a transaction on the first user's checking
account. -/
def leakState : MockState :=
  (register "user-2" "acct-9" "5555555555" "token-2" "eve@example.test"
    "pw" "Eve" (demoState [demoTx1] [])).2

/-- The second user as stored by that registration. -/
def eveUser : User :=
  { id := "user-2", email := "eve@example.test", password := "pw",
    name := "Eve" }

/-! ## Helper lemmas -/

/-- Looking up the key just written by `mapSet`, replace branch. -/
theorem lookup_map_replace {α : Type} (k : String) (v : α) :
    ∀ m : List (String × α), (m.lookup k).isSome = true →
      ((m.map (fun p => if p.1 == k then (k, v) else p)).lookup k) = some v := by
  intro m
  induction m with
  | nil => intro h; simp at h
  | cons p rest ih =>
    intro h
    rcases p with ⟨k', v'⟩
    cases hk : (k' == k) with
    | true =>
      simp only [List.map_cons, hk, if_true]
      simp [List.lookup_cons]
    | false =>
      have hk' : (k == k') = false := by
        cases hbe : (k == k')
        · rfl
        · rw [eq_of_beq hbe] at hk
          rw [beq_self_eq_true] at hk
          exact absurd hk (by simp)
      simp only [List.map_cons, hk, Bool.false_eq_true, if_false]
      simp only [List.lookup_cons, hk'] at h ⊢
      exact ih h

/-- Looking up the key just written by `mapSet`, append branch. -/
theorem lookup_append_new {α : Type} (k : String) (v : α) :
    ∀ m : List (String × α), m.lookup k = none →
      ((m ++ [(k, v)]).lookup k) = some v := by
  intro m
  induction m with
  | nil => intro _; simp [List.lookup_cons]
  | cons p rest ih =>
    intro h
    rcases p with ⟨k', v'⟩
    rw [List.lookup_cons] at h
    rw [List.cons_append, List.lookup_cons]
    cases hk : (k == k') with
    | true =>
      simp only [hk] at h
      exact absurd h (by simp)
    | false =>
      simp only [hk] at h ⊢
      exact ih h

/-- `mapSet` really stores the binding: looking the key back up yields
the new value. -/
theorem lookup_mapSet_self {α : Type} (m : List (String × α)) (k : String)
    (v : α) : (mapSet m k v).lookup k = some v := by
  unfold mapSet
  by_cases h : (m.lookup k).isSome
  · simpa [h] using lookup_map_replace k v m h
  · have hnone : m.lookup k = none := by
      cases hm : m.lookup k
      · rfl
      · simp [hm] at h
    simpa [h] using lookup_append_new k v m hnone

/-- After `setTransfer`, the stored transfer is the one written. -/
theorem findTransfer_setTransfer (st : MockState) (k : String) (t : Transfer) :
    findTransfer (setTransfer st k t) k = some t :=
  lookup_mapSet_self st.transfers k t

/-- `updateFirst` leaves every element relevant to a disjoint search
predicate untouched. -/
theorem find?_updateFirst_of_disjoint {α : Type} {p q : α → Bool} {f : α → α}
    (hpq : ∀ b, p b = true → q b = false) (hf : ∀ b, q (f b) = q b) :
    ∀ l : List α, (updateFirst p f l).find? q = l.find? q := by
  intro l
  induction l with
  | nil => rfl
  | cons a rest ih =>
    cases hp : p a with
    | true =>
      have h1 : updateFirst p f (a :: rest) = f a :: rest := by
        simp [updateFirst, hp]
      rw [h1, List.find?_cons_of_neg _ (by simp [hf a, hpq a hp]),
          List.find?_cons_of_neg _ (by simp [hpq a hp])]
    | false =>
      have h1 : updateFirst p f (a :: rest) = a :: updateFirst p f rest := by
        simp [updateFirst, hp]
      rw [h1]
      cases hq : q a with
      | true =>
        rw [List.find?_cons_of_pos _ hq, List.find?_cons_of_pos _ hq]
      | false =>
        rw [List.find?_cons_of_neg _ (by simp [hq]),
            List.find?_cons_of_neg _ (by simp [hq])]
        exact ih

/-- `updateFirst` rewrites exactly the element that `find?` locates,
provided `f` keeps the predicate true. -/
theorem find?_updateFirst_self {α : Type} {p : α → Bool} {f : α → α}
    (hf : ∀ b, p b = true → p (f b) = true) :
    ∀ {l : List α} {a : α}, l.find? p = some a →
      (updateFirst p f l).find? p = some (f a) := by
  intro l
  induction l with
  | nil => intro a h; simp at h
  | cons x rest ih =>
    intro a h
    cases hx : p x with
    | true =>
      have hax : x = a := by
        have hh := h
        rw [List.find?_cons_of_pos _ hx] at hh
        exact Option.some.inj hh
      subst hax
      have h1 : updateFirst p f (x :: rest) = f x :: rest := by
        simp [updateFirst, hx]
      rw [h1, List.find?_cons_of_pos _ (hf x hx)]
    | false =>
      have h' : rest.find? p = some a := by
        rw [List.find?_cons_of_neg _ (by simp [hx])] at h
        exact h
      have h1 : updateFirst p f (x :: rest) = x :: updateFirst p f rest := by
        simp [updateFirst, hx]
      rw [h1, List.find?_cons_of_neg _ (by simp [hx])]
      exact ih h'

/-! ## C1 -/

/-- C1: `confirm` succeeds only when the stored transfer's status is
`VERIFIED`; on any other status it fails with `OTP_REQUIRED` leaving the
state unchanged; and whenever the transfer comes out of the call
`COMPLETED`, it was `VERIFIED` immediately prior (or already
`COMPLETED`). -/
theorem confirm_only_from_verified
    (now : Int) (receiptId reference authToken transferId note : String)
    (st : MockState) (user : User) (t : Transfer)
    (hauth : requireAuth st authToken = .ok user)
    (ht : findTransfer st transferId = some t) :
    ((confirm now receiptId reference authToken transferId note st).1.isOk =
        true → t.status = .VERIFIED) ∧
    (t.status ≠ .VERIFIED →
      confirm now receiptId reference authToken transferId note st =
        (.error .OTP_REQUIRED, st)) ∧
    (∀ t', findTransfer
        (confirm now receiptId reference authToken transferId note st).2
        transferId = some t' → t'.status = .COMPLETED →
      t.status = .VERIFIED ∨ t.status = .COMPLETED) := by
  by_cases hs : t.status = .VERIFIED
  · exact ⟨fun _ => hs, fun hns => absurd hs hns, fun _ _ _ => Or.inl hs⟩
  · have hred : confirm now receiptId reference authToken transferId note st =
        (.error .OTP_REQUIRED, st) := by
      unfold confirm
      simp only [hauth, ht]
      rw [if_pos hs]
    refine ⟨?_, fun _ => hred, ?_⟩
    · rw [hred]
      intro hok
      exact nomatch hok
    · intro t' ht' hc
      rw [hred] at ht'
      dsimp only at ht'
      rw [ht] at ht'
      cases Option.some.inj ht'
      exact Or.inr hc

/-- C1 witness: confirming the still-pending demo transfer fails with
`OTP_REQUIRED` and leaves the state untouched. -/
theorem confirm_only_from_verified_witness :
    (requireAuth (demoState [] [("tr-1", tBoundary)]) "token-1" =
        .ok demoUser) ∧
    (findTransfer (demoState [] [("tr-1", tBoundary)]) "tr-1" =
        some tBoundary) ∧
    (tBoundary.status ≠ .VERIFIED) ∧
    (confirm 0 "rx-1" "REF-1" "token-1" "tr-1" ""
        (demoState [] [("tr-1", tBoundary)]) =
      (.error .OTP_REQUIRED, demoState [] [("tr-1", tBoundary)])) :=
  ⟨by rfl, by decide, by decide,
   (confirm_only_from_verified 0 "rx-1" "REF-1" "token-1" "tr-1" ""
      (demoState [] [("tr-1", tBoundary)]) demoUser tBoundary
      (by rfl) (by decide)).2.1 (by decide)⟩

/-! ## C9 -/

/-- C9: registering with an email that is already present fails with
`EMAIL_IN_USE` and returns the state unchanged — no user, account or
session token is added. -/
theorem register_duplicate_email
    (newUserId newAcctId acctNumber token email password name : String)
    (st : MockState) (u : User)
    (hemail : email ≠ "") (hpw : password ≠ "")
    (hexist : st.users.find? (fun x => x.email == email) = some u) :
    register newUserId newAcctId acctNumber token email password name st =
      (.error .EMAIL_IN_USE, st) := by
  unfold register
  rw [if_neg (by simp [hemail, hpw]), hexist]

/-- C9 witness: registering the demo user's email again. -/
theorem register_duplicate_email_witness :
    ("demo@bank.test" ≠ "") ∧ ("hunter2" ≠ "") ∧
    ((demoState [] []).users.find?
        (fun x => x.email == "demo@bank.test") = some demoUser) ∧
    (register "user-2" "acct-9" "5555555555" "token-2" "demo@bank.test"
        "hunter2" "Eve" (demoState [] []) =
      (.error .EMAIL_IN_USE, demoState [] [])) :=
  ⟨by decide, by decide, by decide,
   register_duplicate_email "user-2" "acct-9" "5555555555" "token-2"
     "demo@bank.test" "hunter2" "Eve" (demoState [] []) demoUser
     (by decide) (by decide) (by decide)⟩

/-! ## C5 -/

/-- C5: with all fields present and the source account resolved,
`initiate` fails with `INSUFFICIENT_FUNDS` exactly when the amount is
strictly greater than the source balance; on that failure the whole
state — in particular the transfers map — is unchanged; otherwise (so
also when the amount equals the balance) it succeeds with a
`PENDING_OTP` transfer. -/
theorem initiate_insufficient_funds_iff
    (now : Int) (transferId authToken fromAccountId toAccountId : String)
    (amount : Rat) (st : MockState) (user : User) (fromAcct : Account)
    (hauth : requireAuth st authToken = .ok user)
    (hf : fromAccountId ≠ "") (hto : toAccountId ≠ "") (hamt : amount ≠ 0)
    (hacct : st.accounts.find?
        (fun a => a.id == fromAccountId && a.userId == user.id) =
      some fromAcct) :
    ((initiate now transferId authToken fromAccountId toAccountId amount
          st).1 = .error .INSUFFICIENT_FUNDS ↔ fromAcct.balance < amount) ∧
    (fromAcct.balance < amount →
      initiate now transferId authToken fromAccountId toAccountId amount st =
        (.error .INSUFFICIENT_FUNDS, st)) ∧
    (¬ fromAcct.balance < amount →
      (initiate now transferId authToken fromAccountId toAccountId amount
          st).1 = .ok (transferId, .PENDING_OTP)) := by
  unfold initiate
  simp only [hauth]
  rw [if_neg (by simp [hf, hto, hamt])]
  simp only [hacct]
  by_cases hb : fromAcct.balance < amount
  · rw [if_pos hb]
    exact ⟨iff_of_true rfl hb, fun _ => rfl, fun hnb => absurd hb hnb⟩
  · rw [if_neg hb]
    exact ⟨iff_of_false (by simp) hb, fun hb' => absurd hb' hb, fun _ => rfl⟩

/-- C5 witness: transferring exactly the demo balance succeeds, and the
insufficient-funds error coincides with exceeding the balance. -/
theorem initiate_insufficient_funds_iff_witness :
    (requireAuth (demoState [] []) "token-1" = .ok demoUser) ∧
    ("acct-1" ≠ "") ∧ ("acct-2" ≠ "") ∧ ((100 : Rat) ≠ 0) ∧
    ((demoState [] []).accounts.find?
        (fun a => a.id == "acct-1" && a.userId == demoUser.id) =
      some demoAcct1) ∧
    (¬ demoAcct1.balance < 100) ∧
    ((initiate 0 "tr-1" "token-1" "acct-1" "acct-2" 100
        (demoState [] [])).1 = .ok ("tr-1", .PENDING_OTP)) :=
  ⟨by rfl, by decide, by decide, by decide, by decide, by decide,
   (initiate_insufficient_funds_iff 0 "tr-1" "token-1" "acct-1" "acct-2" 100
      (demoState [] []) demoUser demoAcct1 (by rfl) (by decide) (by decide)
      (by decide) (by decide)).2.2 (by decide)⟩

/-! ## C4 -/

/-- C4: with an unexpired challenge, once the attempt counter has
reached the ceiling of 5, `verifyOtp` fails with `OTP_LOCKED` for every
submitted code — the stored code included — because the lock check
precedes the code comparison; below the ceiling, each failed comparison
increments the counter by one, so five wrong codes reach the lock. -/
theorem verifyOtp_lockout
    (now : Int) (authToken transferId : String) (st : MockState)
    (user : User) (t : Transfer) (o : Otp)
    (hauth : requireAuth st authToken = .ok user)
    (ht : findTransfer st transferId = some t)
    (ho : t.otp = some o)
    (hexp : ¬ o.expiresAt < now) :
    (5 ≤ o.attempts → ∀ code,
      verifyOtp now authToken transferId code st =
        (.error .OTP_LOCKED, st)) ∧
    (o.attempts < 5 → ∀ code, o.code ≠ code →
      verifyOtp now authToken transferId code st =
        (.error .OTP_INVALID,
         setTransfer st transferId
          { t with otp := some { o with attempts := o.attempts + 1 } })) := by
  constructor
  · intro hlock code
    unfold verifyOtp
    simp only [hauth, ht, ho]
    rw [if_neg hexp, if_pos hlock]
  · intro hlt code hne
    unfold verifyOtp
    simp only [hauth, ht, ho]
    rw [if_neg hexp, if_neg (by omega), if_pos hne]

/-- C4 witness: with the counter at 5 the stored (correct) code is still
rejected with `OTP_LOCKED`. -/
theorem verifyOtp_lockout_witness :
    (requireAuth (demoState [] [("tr-1", tLocked)]) "token-1" =
        .ok demoUser) ∧
    (findTransfer (demoState [] [("tr-1", tLocked)]) "tr-1" =
        some tLocked) ∧
    (tLocked.otp = some ⟨"999999", 5, 300000⟩) ∧
    (¬ (300000 : Int) < 100) ∧
    (verifyOtp 100 "token-1" "tr-1" "999999"
        (demoState [] [("tr-1", tLocked)]) =
      (.error .OTP_LOCKED, demoState [] [("tr-1", tLocked)])) :=
  ⟨by rfl, by decide, by decide, by decide,
   (verifyOtp_lockout 100 "token-1" "tr-1"
      (demoState [] [("tr-1", tLocked)]) demoUser tLocked
      ⟨"999999", 5, 300000⟩
      (by rfl) (by decide) (by decide) (by decide)).1 (by decide) "999999"⟩

/-! ## C3 -/

/-- C3 counterexample: a challenge that expires at time `300000`
(exactly five minutes after being sent at time `0`), verified with the
stored code exactly at the expiry instant, succeeds with `VERIFIED`
instead of failing with `OTP_EXPIRED` — the code's expiry test is
strict (`expiresAt < now`). -/
theorem verifyOtp_at_expiry_instant_succeeds :
    tBoundary.otp = some ⟨"123456", 0, 300000⟩ ∧
    (verifyOtp 300000 "token-1" "tr-1" "123456"
        (demoState [] [("tr-1", tBoundary)])).1 = .ok "VERIFIED" :=
  ⟨by rfl, by rfl⟩

/-- C3 (amended): `sendOtp` stamps the fresh challenge with expiry
`now + 5` minutes; `verifyOtp` fails with `OTP_EXPIRED` for every code
strictly after that instant, while at the expiry instant itself a fresh
matching challenge still verifies — the boundary is exclusive. -/
theorem otp_expiry_boundary
    (now : Int) (r : Rat) (authToken transferId : String) (st : MockState)
    (user : User) (t : Transfer)
    (hauth : requireAuth st authToken = .ok user)
    (ht : findTransfer st transferId = some t) :
    (findTransfer (sendOtp now r authToken transferId st).2 transferId =
      some { t with otp := some (freshOtp now r) }) ∧
    (∀ now' code o, t.otp = some o → o.expiresAt < now' →
      verifyOtp now' authToken transferId code st =
        (.error .OTP_EXPIRED, st)) ∧
    (∀ o, t.otp = some o → o.attempts < 5 →
      (verifyOtp o.expiresAt authToken transferId o.code st).1 =
        .ok "VERIFIED") := by
  refine ⟨?_, ?_, ?_⟩
  · unfold sendOtp
    simp only [hauth, ht]
    exact findTransfer_setTransfer ..
  · intro now' code o ho hlt
    unfold verifyOtp
    simp only [hauth, ht, ho]
    rw [if_pos hlt]
  · intro o ho hatt
    unfold verifyOtp
    simp only [hauth, ht, ho]
    rw [if_neg (by omega), if_neg (by omega), if_neg (by simp)]

/-- C3 witness: the boundary theorem at the demo state — one
millisecond past expiry the correct code is rejected as expired. -/
theorem otp_expiry_boundary_witness :
    (requireAuth (demoState [] [("tr-1", tBoundary)]) "token-1" =
        .ok demoUser) ∧
    (findTransfer (demoState [] [("tr-1", tBoundary)]) "tr-1" =
        some tBoundary) ∧
    (verifyOtp 300001 "token-1" "tr-1" "123456"
        (demoState [] [("tr-1", tBoundary)]) =
      (.error .OTP_EXPIRED, demoState [] [("tr-1", tBoundary)])) :=
  ⟨by rfl, by decide,
   (otp_expiry_boundary 0 0 "token-1" "tr-1"
      (demoState [] [("tr-1", tBoundary)]) demoUser tBoundary
      (by rfl) (by decide)).2.1 300001 "123456"
     ⟨"123456", 0, 300000⟩
     (by decide) (by decide)⟩

/-! ## C8 -/

/-- C8: `sendOtp` succeeds for any stored transfer — whatever its status
and whatever earlier challenge (locked or expired) it carries — and
replaces the challenge with a fresh code in the 6-digit range
`100000..999999`, attempt counter `0` and expiry `now + 5` minutes;
verifying the fresh code no later than the new expiry then succeeds, so
a locked challenge is reopened by simply resending. -/
theorem sendOtp_resets_challenge
    (now : Int) (r : Rat) (authToken transferId : String) (st : MockState)
    (user : User) (t : Transfer)
    (hauth : requireAuth st authToken = .ok user)
    (ht : findTransfer st transferId = some t)
    (hr0 : 0 ≤ r) (hr1 : r < 1) :
    (sendOtp now r authToken transferId st =
      (.ok ("OTP_SENT", otpCode r),
       setTransfer st transferId { t with otp := some (freshOtp now r) })) ∧
    (100000 ≤ ⌊(100000 : Rat) + r * 900000⌋ ∧
      ⌊(100000 : Rat) + r * 900000⌋ ≤ 999999) ∧
    (∀ now', ¬ now + 5 * 60 * 1000 < now' →
      (verifyOtp now' authToken transferId (otpCode r)
        (sendOtp now r authToken transferId st).2).1 = .ok "VERIFIED") := by
  have hsend : sendOtp now r authToken transferId st =
      (.ok ("OTP_SENT", otpCode r),
       setTransfer st transferId { t with otp := some (freshOtp now r) }) := by
    unfold sendOtp
    simp only [hauth, ht]
  refine ⟨hsend, ⟨?_, ?_⟩, ?_⟩
  · rw [Int.le_floor]
    have h2 : (0 : Rat) ≤ r * 900000 :=
      mul_nonneg hr0 (by norm_num)
    push_cast
    linarith
  · have h1 : (100000 : Rat) + r * 900000 < 1000000 := by
      have h2 : r * 900000 < 1 * 900000 :=
        mul_lt_mul_of_pos_right hr1 (by norm_num)
      linarith
    have h3 : ⌊(100000 : Rat) + r * 900000⌋ < 1000000 := by
      rw [Int.floor_lt]
      push_cast
      linarith
    omega
  · intro now' hle
    rw [hsend]
    have hauth' : requireAuth
        (setTransfer st transferId { t with otp := some (freshOtp now r) })
        authToken = .ok user := hauth
    unfold verifyOtp
    simp only [freshOtp] at hauth' ⊢
    simp only [hauth', findTransfer_setTransfer]
    rw [if_neg hle, if_neg (by omega), if_neg (by simp)]

/-- C8 witness: resending on a completed transfer whose old challenge
was locked and expired installs a fresh usable challenge. -/
theorem sendOtp_resets_challenge_witness :
    (requireAuth (demoState [] [("tr-1", tStale)]) "token-1" =
        .ok demoUser) ∧
    (findTransfer (demoState [] [("tr-1", tStale)]) "tr-1" =
        some tStale) ∧
    ((0 : Rat) ≤ 0) ∧ ((0 : Rat) < 1) ∧
    ((verifyOtp 300000 "token-1" "tr-1" (otpCode 0)
        (sendOtp 0 0 "token-1" "tr-1"
          (demoState [] [("tr-1", tStale)])).2).1 = .ok "VERIFIED") :=
  ⟨by rfl, by decide, by decide, by decide,
   (sendOtp_resets_challenge 0 0 "token-1" "tr-1"
      (demoState [] [("tr-1", tStale)]) demoUser tStale
      (by rfl) (by decide) (by decide) (by decide)).2.2 300000 (by decide)⟩

/-! ## C2 -/

/-- C2 counterexample: a confirmed transfer whose source and destination
both resolve to the same internal account (the source finds `acct-1` by
id and owner, the destination finds `acct-1` by id).  The confirmation
succeeds, the amount is the nonzero `50`, yet the source account's
balance is still `100` afterwards — it does not decrease by the
transfer amount, because the credit of the destination lands on the very
account just debited. -/
theorem confirm_self_transfer_no_debit :
    (requireAuth (demoState [] [("tr-1", tSelf)]) "token-1" =
        .ok demoUser) ∧
    ((demoState [] [("tr-1", tSelf)]).accounts.find?
        (isFromAcct tSelf "user-1") = some demoAcct1) ∧
    ((demoState [] [("tr-1", tSelf)]).accounts.find?
        (isToAcct tSelf) = some demoAcct1) ∧
    (tSelf.amount = 50) ∧ (demoAcct1.balance = 100) ∧
    ((confirm 0 "rx-1" "REF-1" "token-1" "tr-1" ""
        (demoState [] [("tr-1", tSelf)])).1.isOk = true) ∧
    (Option.map Account.balance
        ((confirm 0 "rx-1" "REF-1" "token-1" "tr-1" ""
          (demoState [] [("tr-1", tSelf)])).2.accounts.find?
            (isFromAcct tSelf "user-1")) = some 100) := by
  refine ⟨by rfl, by decide, by decide, by decide, by decide, ?_, ?_⟩
  · rfl
  · simp +decide [confirm, requireAuth, findTransfer, setTransfer, mapSet,
      updateFirst, isFromAcct, isToAcct, demoState, demoUser, demoAcct1,
      demoAcct2, tSelf]

/-- Successful `confirm` between two distinct internal accounts:
observable effects on the result, the two touched accounts, the
transaction log and the stored transfer (shared helper). -/
theorem confirm_verified_result
    (now : Int) (receiptId reference authToken transferId note : String)
    (st : MockState) (user : User) (t : Transfer) (fa ta : Account)
    (hauth : requireAuth st authToken = .ok user)
    (ht : findTransfer st transferId = some t)
    (hs : t.status = .VERIFIED)
    (hfrom : st.accounts.find? (isFromAcct t user.id) = some fa)
    (hbal : ¬ fa.balance < t.amount)
    (hne : t.fromAccountId ≠ t.toAccountId)
    (hto : st.accounts.find? (isToAcct t) = some ta) :
    ((confirm now receiptId reference authToken transferId note st).1.isOk =
      true) ∧
    ((confirm now receiptId reference authToken transferId note st).2.accounts.find?
        (isFromAcct t user.id) =
      some { fa with balance := fa.balance - t.amount }) ∧
    ((confirm now receiptId reference authToken transferId note st).2.accounts.find?
        (isToAcct t) =
      some { ta with balance := ta.balance + t.amount }) ∧
    ((confirm now receiptId reference authToken transferId note st).2.transactions =
      st.transactions ++
        [{ id := receiptId, accountId := fa.id,
           description := if note = "" then "Transfer" else note,
           amount := -t.amount, createdAt := now }]) ∧
    (findTransfer
        (confirm now receiptId reference authToken transferId note st).2
        transferId = some { t with status := .COMPLETED }) := by
  have hdisj : ∀ b, isFromAcct t user.id b = true → isToAcct t b = false := by
    intro b hb
    rw [isFromAcct, Bool.and_eq_true, beq_iff_eq] at hb
    rw [isToAcct, beq_eq_false_iff_ne, hb.1]
    exact hne
  have hdisj' : ∀ b, isToAcct t b = true → isFromAcct t user.id b = false := by
    intro b hb
    rw [isToAcct, beq_iff_eq] at hb
    rw [isFromAcct, Bool.and_eq_false_iff]
    left
    rw [beq_eq_false_iff_ne, hb]
    exact fun h => hne h.symm
  have htoAcct :
      (updateFirst (isFromAcct t user.id)
        (fun a => { a with balance := a.balance - t.amount })
        st.accounts).find? (isToAcct t) = some ta :=
    (find?_updateFirst_of_disjoint
      (f := fun a => { a with balance := a.balance - t.amount })
      hdisj (fun _ => rfl) st.accounts).trans hto
  unfold confirm
  simp only [hauth, ht]
  rw [if_neg (by simp [hs])]
  simp only [hfrom]
  rw [if_neg hbal]
  simp only [htoAcct]
  refine ⟨rfl, ?_, ?_, rfl, findTransfer_setTransfer _ _ _⟩
  · have hstep : (updateFirst (isFromAcct t user.id)
        (fun a => { a with balance := a.balance - t.amount })
        st.accounts).find? (isFromAcct t user.id) =
          some { fa with balance := fa.balance - t.amount } :=
      find?_updateFirst_self (fun b hb => by simpa [isFromAcct] using hb)
        hfrom
    exact (find?_updateFirst_of_disjoint
      (f := fun a => { a with balance := a.balance + t.amount })
      hdisj' (fun _ => rfl)
      (updateFirst (isFromAcct t user.id)
        (fun a => { a with balance := a.balance - t.amount })
        st.accounts)).trans hstep
  · exact find?_updateFirst_self (fun b hb => by simpa [isToAcct] using hb)
      htoAcct

/-- C2 (amended): for a confirmed transfer whose source and destination
resolve to two *distinct* internal accounts, the source balance
decreases by exactly the amount, the destination balance increases by
exactly the amount, and the sum of the two balances is unchanged. -/
theorem confirm_zero_sum_distinct
    (now : Int) (receiptId reference authToken transferId note : String)
    (st : MockState) (user : User) (t : Transfer) (fa ta : Account)
    (hauth : requireAuth st authToken = .ok user)
    (ht : findTransfer st transferId = some t)
    (hs : t.status = .VERIFIED)
    (hfrom : st.accounts.find? (isFromAcct t user.id) = some fa)
    (hbal : ¬ fa.balance < t.amount)
    (hne : t.fromAccountId ≠ t.toAccountId)
    (hto : st.accounts.find? (isToAcct t) = some ta) :
    ((confirm now receiptId reference authToken transferId note st).1.isOk =
      true) ∧
    ((confirm now receiptId reference authToken transferId note st).2.accounts.find?
        (isFromAcct t user.id) =
      some { fa with balance := fa.balance - t.amount }) ∧
    ((confirm now receiptId reference authToken transferId note st).2.accounts.find?
        (isToAcct t) =
      some { ta with balance := ta.balance + t.amount }) ∧
    ((fa.balance - t.amount) + (ta.balance + t.amount) =
      fa.balance + ta.balance) := by
  obtain ⟨h1, h2, h3, -, -⟩ :=
    confirm_verified_result now receiptId reference authToken transferId note
      st user t fa ta hauth ht hs hfrom hbal hne hto
  exact ⟨h1, h2, h3, by ring⟩

/-- C2 witness: the amended zero-sum law at the two distinct demo
accounts. -/
theorem confirm_zero_sum_distinct_witness :
    (requireAuth (demoState [] [("tr-1", tDistinct)]) "token-1" =
        .ok demoUser) ∧
    (findTransfer (demoState [] [("tr-1", tDistinct)]) "tr-1" =
        some tDistinct) ∧
    (tDistinct.status = .VERIFIED) ∧
    ((demoState [] [("tr-1", tDistinct)]).accounts.find?
        (isFromAcct tDistinct demoUser.id) = some demoAcct1) ∧
    (¬ demoAcct1.balance < tDistinct.amount) ∧
    ("acct-1" ≠ "acct-2") ∧
    ((demoState [] [("tr-1", tDistinct)]).accounts.find?
        (isToAcct tDistinct) = some demoAcct2) ∧
    (((confirm 5 "rx-1" "REF-1" "token-1" "tr-1" "note"
          (demoState [] [("tr-1", tDistinct)])).1.isOk = true) ∧
      ((confirm 5 "rx-1" "REF-1" "token-1" "tr-1" "note"
          (demoState [] [("tr-1", tDistinct)])).2.accounts.find?
          (isFromAcct tDistinct demoUser.id) =
        some { demoAcct1 with
                balance := demoAcct1.balance - tDistinct.amount }) ∧
      ((confirm 5 "rx-1" "REF-1" "token-1" "tr-1" "note"
          (demoState [] [("tr-1", tDistinct)])).2.accounts.find?
          (isToAcct tDistinct) =
        some { demoAcct2 with
                balance := demoAcct2.balance + tDistinct.amount }) ∧
      ((demoAcct1.balance - tDistinct.amount) +
          (demoAcct2.balance + tDistinct.amount) =
        demoAcct1.balance + demoAcct2.balance)) :=
  ⟨by rfl, by decide, by decide, by decide, by decide, by decide, by decide,
   confirm_zero_sum_distinct 5 "rx-1" "REF-1" "token-1" "tr-1" "note"
     (demoState [] [("tr-1", tDistinct)]) demoUser tDistinct demoAcct1
     demoAcct2 (by rfl) (by decide) (by decide) (by decide) (by decide)
     (by decide) (by decide)⟩

/-! ## C6 -/

/-- C6 counterexample: the second registered user, authenticated with
their own token, lists transactions filtered by the first user's
account id `acct-1` — an account they do not own (their only account is
`acct-9`) — and receives that account's transaction: the `accountId`
filter bypasses the ownership restriction. -/
theorem listTransactions_filter_ignores_ownership :
    (requireAuth leakState "token-2" = .ok eveUser) ∧
    ((leakState.accounts.filter (fun a => a.userId == "user-2")).map
        (fun a => a.id) = ["acct-9"]) ∧
    (demoTx1.accountId = "acct-1") ∧
    (demoAcct1.userId = "user-1") ∧
    (mockTransactions "token-2" (some "acct-1") leakState =
      .ok [demoTx1]) :=
  ⟨by rfl, by rfl, by rfl, by rfl, by rfl⟩

/-- C6 (amended): for an authenticated caller the returned list is
sorted descending by timestamp, and every returned transaction
satisfies the filter the code actually applies: with no usable
`accountId` (absent or empty) it must belong to one of the caller's own
accounts, but with a nonempty `accountId` it is only required to carry
that account id — ownership of the filtering account is not checked. -/
theorem listTransactions_scope_and_order
    (authToken : String) (accountId : Option String) (st : MockState)
    (user : User) (txs : List Transaction)
    (hauth : requireAuth st authToken = .ok user)
    (hres : mockTransactions authToken accountId st = .ok txs) :
    List.Sorted txDescOrder txs ∧
    (∀ tx ∈ txs, txSelected accountId
      ((st.accounts.filter (fun a => a.userId == user.id)).map
        (fun a => a.id)) tx = true) ∧
    (accountId = none → ∀ tx ∈ txs,
      ((st.accounts.filter (fun a => a.userId == user.id)).map
        (fun a => a.id)).contains tx.accountId = true) ∧
    (∀ aid, accountId = some aid → aid ≠ "" →
      ∀ tx ∈ txs, tx.accountId = aid) := by
  have htxs : txs = List.insertionSort txDescOrder
      (st.transactions.filter (txSelected accountId
        ((st.accounts.filter (fun a => a.userId == user.id)).map
          (fun a => a.id)))) := by
    unfold mockTransactions at hres
    simp only [hauth] at hres
    exact (Except.ok.inj hres).symm
  subst htxs
  refine ⟨List.sorted_insertionSort _ _, ?_, ?_, ?_⟩
  · intro tx htx
    rw [List.mem_insertionSort] at htx
    exact List.of_mem_filter htx
  · intro hnone tx htx
    rw [List.mem_insertionSort] at htx
    have hsel := List.of_mem_filter htx
    rw [hnone] at hsel
    simpa [txSelected] using hsel
  · intro aid haid hne tx htx
    rw [List.mem_insertionSort] at htx
    have hsel := List.of_mem_filter htx
    rw [haid] at hsel
    simp only [txSelected] at hsel
    rw [if_neg hne] at hsel
    exact eq_of_beq hsel

/-- C6 witness: the amended scope law applied to the leaking query. -/
theorem listTransactions_scope_and_order_witness :
    (requireAuth leakState "token-2" = .ok eveUser) ∧
    (mockTransactions "token-2" (some "acct-1") leakState =
      .ok [demoTx1]) ∧
    List.Sorted txDescOrder [demoTx1] :=
  ⟨by rfl, by rfl,
   (listTransactions_scope_and_order "token-2" (some "acct-1") leakState
      eveUser [demoTx1] (by rfl) (by rfl)).1⟩

/-! ## C7 -/

/-- C7: `verifyOtp` never inspects the transfer's status — none of the
hypotheses constrains `t.status`, which may in particular be
`COMPLETED` — so any stored transfer with a live challenge and the
matching code is (re)stamped `VERIFIED`, after which `confirm` runs the
whole settlement again: it succeeds, appends one more debit transaction,
debits the source account once more and completes the transfer a second
time. -/
theorem verifyOtp_ignores_status
    (now : Int) (receiptId reference authToken transferId note : String)
    (st : MockState) (user : User) (t : Transfer) (o : Otp)
    (fa ta : Account)
    (hauth : requireAuth st authToken = .ok user)
    (ht : findTransfer st transferId = some t)
    (ho : t.otp = some o)
    (hexp : ¬ o.expiresAt < now)
    (hatt : o.attempts < 5)
    (hfa : st.accounts.find? (isFromAcct t user.id) = some fa)
    (hbal : ¬ fa.balance < t.amount)
    (hne : t.fromAccountId ≠ t.toAccountId)
    (hto : st.accounts.find? (isToAcct t) = some ta) :
    ((verifyOtp now authToken transferId o.code st).1 = .ok "VERIFIED") ∧
    (findTransfer (verifyOtp now authToken transferId o.code st).2
        transferId = some { t with status := .VERIFIED }) ∧
    ((confirm now receiptId reference authToken transferId note
        (verifyOtp now authToken transferId o.code st).2).1.isOk = true) ∧
    ((confirm now receiptId reference authToken transferId note
        (verifyOtp now authToken transferId o.code st).2).2.transactions =
      st.transactions ++
        [{ id := receiptId, accountId := fa.id,
           description := if note = "" then "Transfer" else note,
           amount := -t.amount, createdAt := now }]) ∧
    ((confirm now receiptId reference authToken transferId note
        (verifyOtp now authToken transferId o.code st).2).2.accounts.find?
        (isFromAcct t user.id) =
      some { fa with balance := fa.balance - t.amount }) ∧
    (findTransfer (confirm now receiptId reference authToken transferId
        note (verifyOtp now authToken transferId o.code st).2).2
        transferId = some { t with status := .COMPLETED }) := by
  have hv : verifyOtp now authToken transferId o.code st =
      (.ok "VERIFIED",
       setTransfer st transferId { t with status := .VERIFIED }) := by
    unfold verifyOtp
    simp only [hauth, ht, ho]
    rw [if_neg hexp, if_neg (by omega), if_neg (by simp)]
  rw [hv]
  have hauthV : requireAuth
      (setTransfer st transferId { t with status := .VERIFIED })
      authToken = .ok user := hauth
  have htV : findTransfer
      (setTransfer st transferId { t with status := .VERIFIED })
      transferId = some { t with status := .VERIFIED } :=
    findTransfer_setTransfer _ _ _
  have hfaV : (setTransfer st transferId
      { t with status := .VERIFIED }).accounts.find?
      (isFromAcct { t with status := .VERIFIED } user.id) = some fa := hfa
  have hbalV : ¬ fa.balance <
      ({ t with status := .VERIFIED } : Transfer).amount := hbal
  have hneV : ({ t with status := .VERIFIED } : Transfer).fromAccountId ≠
      ({ t with status := .VERIFIED } : Transfer).toAccountId := hne
  have htoV : (setTransfer st transferId
      { t with status := .VERIFIED }).accounts.find?
      (isToAcct { t with status := .VERIFIED }) = some ta := hto
  have h := confirm_verified_result now receiptId reference authToken
    transferId note (setTransfer st transferId { t with status := .VERIFIED })
    user { t with status := .VERIFIED } fa ta hauthV htV rfl hfaV hbalV
    hneV htoV
  exact ⟨rfl, htV, h.1, h.2.2.2.1, h.2.1, h.2.2.2.2⟩

/-- C7 witness: re-verifying and re-confirming an already `COMPLETED`
demo transfer. -/
theorem verifyOtp_ignores_status_witness :
    (requireAuth (demoState [] [("tr-1", tCompleted)]) "token-1" =
        .ok demoUser) ∧
    (findTransfer (demoState [] [("tr-1", tCompleted)]) "tr-1" =
        some tCompleted) ∧
    (tCompleted.status = .COMPLETED) ∧
    (tCompleted.otp = some ⟨"654321", 0, 600000⟩) ∧
    ((verifyOtp 100 "token-1" "tr-1" "654321"
        (demoState [] [("tr-1", tCompleted)])).1 = .ok "VERIFIED") ∧
    ((confirm 100 "rx-2" "REF-2" "token-1" "tr-1" ""
        (verifyOtp 100 "token-1" "tr-1" "654321"
          (demoState [] [("tr-1", tCompleted)])).2).1.isOk = true) :=
  ⟨by rfl, by decide, by decide, by decide,
   (verifyOtp_ignores_status 100 "rx-2" "REF-2" "token-1" "tr-1" ""
      (demoState [] [("tr-1", tCompleted)]) demoUser tCompleted
      ⟨"654321", 0, 600000⟩ demoAcct1 demoAcct2 (by rfl) (by decide)
      (by decide) (by decide) (by decide) (by decide) (by decide)
      (by decide) (by decide)).1,
   (verifyOtp_ignores_status 100 "rx-2" "REF-2" "token-1" "tr-1" ""
      (demoState [] [("tr-1", tCompleted)]) demoUser tCompleted
      ⟨"654321", 0, 600000⟩ demoAcct1 demoAcct2 (by rfl) (by decide)
      (by decide) (by decide) (by decide) (by decide) (by decide)
      (by decide) (by decide)).2.2.1⟩

/-! ## C10 -/

/-- C10 counterexample: for an authenticated caller with a valid owned
source account, `initiate` with amount `0` (which is `≤ 0`) does fail —
with `VALIDATION`, because the falsy-field check treats `0` as a missing
amount — and no transfer record is created, contradicting the claim
that a `PENDING_OTP` record is created for every amount `≤ 0`. -/
theorem initiate_zero_amount_rejected :
    (requireAuth (demoState [] []) "token-1" = .ok demoUser) ∧
    ((demoState [] []).accounts.find?
        (fun a => a.id == "acct-1" && a.userId == demoUser.id) =
      some demoAcct1) ∧
    ((0 : Rat) ≤ 0) ∧
    (initiate 0 "tr-9" "token-1" "acct-1" "acct-2" 0 (demoState [] []) =
      (.error .VALIDATION, demoState [] [])) ∧
    ((demoState [] []).transfers = []) :=
  ⟨by rfl, by decide, by decide, by rfl, by rfl⟩

/-- C10 (amended): `initiate` applies no sign validation of its own:
a strictly negative amount (not exceeding the balance) passes every
component-side check and creates a `PENDING_OTP` transfer record, while
an amount of exactly `0` is rejected with `VALIDATION` by the
missing-field truthiness check — not by any sign check. -/
theorem initiate_no_sign_validation
    (now : Int) (transferId authToken fromAccountId toAccountId : String)
    (amount : Rat) (st : MockState) (user : User) (fromAcct : Account)
    (hauth : requireAuth st authToken = .ok user)
    (hf : fromAccountId ≠ "") (hto : toAccountId ≠ "")
    (hacct : st.accounts.find?
        (fun a => a.id == fromAccountId && a.userId == user.id) =
      some fromAcct) :
    (amount < 0 → ¬ fromAcct.balance < amount →
      initiate now transferId authToken fromAccountId toAccountId amount
          st =
        (.ok (transferId, .PENDING_OTP),
         { st with transfers := (mapSet st.transfers transferId
            (pendingTransfer now transferId user.id fromAccountId
              toAccountId amount)) })) ∧
    (amount = 0 →
      initiate now transferId authToken fromAccountId toAccountId amount
          st = (.error .VALIDATION, st)) := by
  constructor
  · intro hneg hnb
    have ham : amount ≠ 0 := ne_of_lt hneg
    unfold initiate
    simp only [hauth]
    rw [if_neg (by simp [hf, hto, ham])]
    simp only [hacct]
    rw [if_neg hnb]
  · intro h0
    unfold initiate
    simp only [hauth]
    rw [if_pos (Or.inr (Or.inr h0))]

/-- C10 witness: a transfer of `-5` from the demo checking account is
accepted and recorded as `PENDING_OTP`. -/
theorem initiate_no_sign_validation_witness :
    (requireAuth (demoState [] []) "token-1" = .ok demoUser) ∧
    ("acct-1" ≠ "") ∧ ("acct-2" ≠ "") ∧
    ((demoState [] []).accounts.find?
        (fun a => a.id == "acct-1" && a.userId == demoUser.id) =
      some demoAcct1) ∧
    ((-5 : Rat) < 0) ∧ (¬ demoAcct1.balance < (-5 : Rat)) ∧
    ((initiate 0 "tr-9" "token-1" "acct-1" "acct-2" (-5)
        (demoState [] [])).1 = .ok ("tr-9", .PENDING_OTP)) :=
  ⟨by rfl, by decide, by decide, by decide, by decide, by decide,
   by rw [(initiate_no_sign_validation 0 "tr-9" "token-1" "acct-1"
        "acct-2" (-5) (demoState [] []) demoUser demoAcct1 (by rfl)
        (by decide) (by decide) (by decide)).1 (by decide) (by decide)]⟩

end ApiClient
